import Mathlib

/-!
# Verification of the artifact version controller and chat query handling

Shallow embedding of the state-management logic of the artifact panel
(src/components/artifact/artifact.tsx) and of the one-time query-parameter
consumption effect of the chat component. React state updates are modelled
as explicit state passing; network writes are recorded in an output list.
-/

set_option autoImplicit false

/-- Modelled from the spec: the four artifact kinds (text, code, image,
sheet). Their concrete definitions live in artifact client modules outside
the provided sources; only the kind tag matters here. -/
inductive ArtifactKind where
  | text
  | code
  | image
  | sheet
deriving DecidableEq, Repr

/-- The artifact status field of the UIArtifact interface
(artifact.tsx, "streaming" or "idle"). -/
inductive ArtifactStatus where
  | streaming
  | idle
deriving DecidableEq, Repr

/-- The boundingBox field of UIArtifact (layout only; its numeric values
play no role in any verified property, so coordinates are integers). -/
structure BoundingBox where
  top : Int
  left : Int
  width : Int
  height : Int
deriving DecidableEq, Repr

/-- The UIArtifact view state (artifact.tsx). -/
structure UIArtifact where
  title : String
  documentId : String
  kind : ArtifactKind
  content : String
  isVisible : Bool
  status : ArtifactStatus
  boundingBox : BoundingBox
deriving DecidableEq, Repr

/-- Modelled from the spec: a persisted document revision record
(title, content, kind, createdAt). The database schema module is outside
the provided sources; the content column is nullable (the code guards with
"content ?? empty" and a falsiness check), so content is an Option.
createdAt is an abstract timestamp. -/
structure Document where
  title : String
  content : Option String
  kind : ArtifactKind
  createdAt : Nat
deriving DecidableEq, Repr

/-- The SWR key of the document-history fetch (artifact.tsx lines 59-64):
the request key is the document URL when the artifact has a real document
id and is not streaming, and null (no fetch) otherwise. -/
def documentsFetchKey (documentId : String) (status : ArtifactStatus) :
    Option String :=
  if documentId ≠ "init" ∧ status ≠ ArtifactStatus.streaming then
    some ("/api/document?id=" ++ documentId)
  else
    none

/-- A POST body sent to the document endpoint by the flush
(artifact.tsx lines 109-116). -/
structure WriteRequest where
  url : String
  title : String
  content : String
  kind : ArtifactKind
deriving DecidableEq, Repr

/-- Result of one run of the flush callback: the new SWR cache for the
document list, the new dirty flag, and the write requests issued. -/
structure FlushResult where
  documents : Option (List Document)
  isContentDirty : Bool
  writes : List WriteRequest
deriving DecidableEq, Repr

/-- The flush callback handleContentChange (artifact.tsx lines 92-134).
It mutates the SWR cache for the document list:
- when the cache is absent, the mutator returns undefined and the cache
  and dirty flag are left untouched;
- when the latest cached record is missing, or its content is falsy
  (null or the empty string), the dirty flag is cleared and no write
  is issued;
- when the latest content differs from the proposed content, a POST with
  title, content and kind is issued, the dirty flag is cleared, and a
  synthesized record (new content, current timestamp) is appended;
- when the latest content equals the proposed content, the cache is
  returned unchanged and the dirty flag is left as it was. -/
def handleContentChange (artifact : UIArtifact)
    (currentDocuments : Option (List Document)) (isContentDirty : Bool)
    (updatedContent : String) (now : Nat) : FlushResult :=
  match currentDocuments with
  | none =>
    { documents := none, isContentDirty := isContentDirty, writes := [] }
  | some docs =>
    match docs.getLast? with
    | none =>
      { documents := some docs, isContentDirty := false, writes := [] }
    | some currentDocument =>
      match currentDocument.content with
      | none =>
        { documents := some docs, isContentDirty := false, writes := [] }
      | some c0 =>
        if c0 = "" then
          { documents := some docs, isContentDirty := false, writes := [] }
        else if c0 ≠ updatedContent then
          { documents := some (docs ++
              [{ currentDocument with
                   content := some updatedContent, createdAt := now }]),
            isContentDirty := false,
            writes := [{ url := "/api/document?id=" ++ artifact.documentId,
                         title := artifact.title,
                         content := updatedContent,
                         kind := artifact.kind }] }
        else
          { documents := some docs, isContentDirty := isContentDirty,
            writes := [] }

/-- Claim C6: the document revision-history fetch key is absent (fetch
suppressed) exactly when the document id is uninitialized ("init") or the
artifact status is streaming. -/
theorem fetch_suppressed_iff :
    ∀ (documentId : String) (status : ArtifactStatus),
    documentsFetchKey documentId status = none ↔
      (documentId = "init" ∨ status = ArtifactStatus.streaming) := by
  intro documentId status
  by_cases h1 : documentId = "init" <;>
    by_cases h2 : status = ArtifactStatus.streaming <;>
    simp [documentsFetchKey, h1, h2]

/-- A concrete artifact used by witnesses and counterexamples. -/
def sampleArtifact : UIArtifact :=
  { title := "Essay", documentId := "doc-1", kind := ArtifactKind.text,
    content := "a", isVisible := true, status := ArtifactStatus.idle,
    boundingBox := { top := 0, left := 0, width := 0, height := 0 } }

/-- A concrete persisted revision whose content is the nonempty string
"a", used by witnesses and counterexamples. -/
def sampleDocument : Document :=
  { title := "Essay", content := some "a", kind := ArtifactKind.text,
    createdAt := 0 }

/-- Claim C1 counterexample: flushing content equal to the latest cached
record's (nonempty) content issues no write, but it does NOT clear the
dirty flag — a dirty flag that was true stays true, while the claim says
it is set to false. -/
theorem flush_equal_keeps_dirty_cx :
    (handleContentChange sampleArtifact (some [sampleDocument]) true
      "a" 1).writes = [] ∧
    (handleContentChange sampleArtifact (some [sampleDocument]) true
      "a" 1).isContentDirty = true := by
  decide

/-- Claim C1 (amended): for a flush against a cached history whose latest
record has nonempty content, if the proposed content equals that content
then no write is issued, the dirty flag is left unchanged (not cleared)
and the cache is unchanged; if it differs, a write request carrying the
artifact title, the proposed content and the artifact kind is issued. -/
theorem flush_compare_decision :
    ∀ (a : UIArtifact) (ds : List Document) (d : Document) (c0 : String)
      (dirty : Bool) (c : String) (now : Nat),
    ds.getLast? = some d → d.content = some c0 → c0 ≠ "" →
    ((c0 = c →
        (handleContentChange a (some ds) dirty c now).writes = [] ∧
        (handleContentChange a (some ds) dirty c now).isContentDirty
          = dirty ∧
        (handleContentChange a (some ds) dirty c now).documents
          = some ds) ∧
     (c0 ≠ c →
        (handleContentChange a (some ds) dirty c now).writes =
          [{ url := "/api/document?id=" ++ a.documentId, title := a.title,
             content := c, kind := a.kind }])) := by
  intro a ds d c0 dirty c now hlast hcontent hne
  constructor
  · intro heq
    subst heq
    simp [handleContentChange, hlast, hcontent, hne]
  · intro hdiff
    simp [handleContentChange, hlast, hcontent, hne, hdiff]

/-- Claim C1 witness: at the concrete history [sampleDocument] (latest
content "a"), flushing "a" issues no write and leaves the dirty flag
true, while flushing "b" issues exactly the expected write. -/
theorem flush_compare_decision_witness :
    ((handleContentChange sampleArtifact (some [sampleDocument]) true
        "a" 1).writes = [] ∧
     (handleContentChange sampleArtifact (some [sampleDocument]) true
        "a" 1).isContentDirty = true ∧
     (handleContentChange sampleArtifact (some [sampleDocument]) true
        "a" 1).documents = some [sampleDocument]) ∧
    (handleContentChange sampleArtifact (some [sampleDocument]) true
        "b" 1).writes =
      [{ url := "/api/document?id=doc-1", title := "Essay",
         content := "b", kind := ArtifactKind.text }] := by
  have h1 := flush_compare_decision sampleArtifact [sampleDocument]
    sampleDocument "a" true "a" 1 (by decide) (by decide) (by decide)
  have h2 := flush_compare_decision sampleArtifact [sampleDocument]
    sampleDocument "a" true "b" 1 (by decide) (by decide) (by decide)
  exact ⟨h1.1 rfl, h2.2 (by decide)⟩

/-- Claim C4: whenever a flush issues a write, the cached history grows by
exactly one record and the appended record's content is the proposed
content. -/
theorem flush_write_appends_one :
    ∀ (a : UIArtifact) (ds : List Document) (dirty : Bool) (c : String)
      (now : Nat),
    (handleContentChange a (some ds) dirty c now).writes ≠ [] →
    ∃ ds2, (handleContentChange a (some ds) dirty c now).documents
        = some ds2 ∧
      ds2.length = ds.length + 1 ∧
      ∃ d2, ds2.getLast? = some d2 ∧ d2.content = some c := by
  intro a ds dirty c now hw
  cases hlast : ds.getLast? with
  | none => simp [handleContentChange, hlast] at hw
  | some d =>
    cases hcontent : d.content with
    | none => simp [handleContentChange, hlast, hcontent] at hw
    | some c0 =>
      by_cases h0 : c0 = ""
      · simp [handleContentChange, hlast, hcontent, h0] at hw
      · by_cases hdiff : c0 = c
        · subst hdiff
          simp [handleContentChange, hlast, hcontent, h0] at hw
        · refine ⟨ds ++ [{ d with content := some c, createdAt := now }],
            ?_, ?_, ?_⟩
          · simp [handleContentChange, hlast, hcontent, h0, hdiff]
          · simp
          · exact ⟨{ d with content := some c, createdAt := now },
              List.getLast?_concat _, rfl⟩

/-- Claim C4 witness: flushing "b" against the concrete one-record
history appends exactly one record whose content is "b". -/
theorem flush_write_appends_one_witness :
    ∃ ds2, (handleContentChange sampleArtifact (some [sampleDocument])
        true "b" 1).documents = some ds2 ∧
      ds2.length = [sampleDocument].length + 1 ∧
      ∃ d2, ds2.getLast? = some d2 ∧ d2.content = some "b" :=
  flush_write_appends_one sampleArtifact [sampleDocument] true "b" 1
    (by decide)

/-- Claim C10: when the cached history's latest record is missing (empty
list) or its content is null or empty, the flush clears the dirty flag,
issues no write, and leaves the cache unchanged, whatever the proposed
content. -/
theorem flush_missing_content_clears_dirty :
    ∀ (a : UIArtifact) (ds : List Document) (dirty : Bool) (c : String)
      (now : Nat),
    (ds.getLast? = none ∨
      (∃ d, ds.getLast? = some d ∧
        (d.content = none ∨ d.content = some ""))) →
    (handleContentChange a (some ds) dirty c now).isContentDirty
      = false ∧
    (handleContentChange a (some ds) dirty c now).writes = [] ∧
    (handleContentChange a (some ds) dirty c now).documents = some ds := by
  intro a ds dirty c now h
  rcases h with h | ⟨d, hd, hc | hc⟩
  · simp [handleContentChange, h]
  · simp [handleContentChange, hd, hc]
  · simp [handleContentChange, hd, hc]

/-- Claim C10 witness: flushing "hello" against an empty cached history
clears the dirty flag and issues no write. -/
theorem flush_missing_content_clears_dirty_witness :
    (handleContentChange sampleArtifact (some []) true "hello"
      1).isContentDirty = false ∧
    (handleContentChange sampleArtifact (some []) true "hello"
      1).writes = [] ∧
    (handleContentChange sampleArtifact (some []) true "hello"
      1).documents = some [] :=
  flush_missing_content_clears_dirty sampleArtifact [] true "hello" 1
    (Or.inl rfl)

/-- The component-local state threaded through an editing session:
the SWR document-list cache, the "document" useState (latest fetched
record, null until a nonempty fetch arrives), the dirty flag, the
single-slot trailing-debounce buffer of useDebounceCallback, and the
accumulated write requests. -/
structure EditSession where
  documents : Option (List Document)
  document : Option Document
  isContentDirty : Bool
  pendingFlush : Option String
  writes : List WriteRequest
deriving DecidableEq, Repr

/-- The saveContent callback (artifact.tsx lines 141-154): only when the
"document" state is present and the proposed content differs from its
content does it set the dirty flag and either schedule a debounced flush
(replacing any pending one) or run the flush immediately. -/
def saveContent (a : UIArtifact) (now : Nat) (s : EditSession)
    (updatedContent : String) (debounce : Bool) : EditSession :=
  match s.document with
  | none => s
  | some d =>
    if some updatedContent ≠ d.content then
      if debounce then
        { s with isContentDirty := true,
                 pendingFlush := some updatedContent }
      else
        let r := handleContentChange a s.documents true updatedContent now
        { s with isContentDirty := r.isContentDirty,
                 documents := r.documents,
                 writes := s.writes ++ r.writes }
    else s

/-- Expiry of the 2000 ms debounce window: if a flush is pending, run
handleContentChange on its buffered content and clear the buffer. -/
def elapseDebounce (a : UIArtifact) (now : Nat) (s : EditSession) :
    EditSession :=
  match s.pendingFlush with
  | none => s
  | some c =>
    let r := handleContentChange a s.documents s.isContentDirty c now
    { s with documents := r.documents,
             isContentDirty := r.isContentDirty,
             writes := s.writes ++ r.writes,
             pendingFlush := none }

/-- The editing session of an artifact whose fetched revision history is
empty: the document-list cache holds an empty list, the "document" state
was never set (it is only set from a nonempty fetch), the dirty flag is
clear, nothing is pending and nothing was written. -/
def emptyHistorySession : EditSession :=
  { documents := some [], document := none, isContentDirty := false,
    pendingFlush := none, writes := [] }

/-- Claim C2 counterexample: with an empty revision history, typing
"hello" never sets the dirty flag, and after the debounce window elapses
no write has fired and the history length is still 0 — the claim promises
dirty=true, one write, and history length 1. -/
theorem empty_history_edit_cx :
    (saveContent sampleArtifact 0 emptyHistorySession "hello"
      true).isContentDirty = false ∧
    (elapseDebounce sampleArtifact 2000
      (saveContent sampleArtifact 0 emptyHistorySession "hello"
        true)).writes = [] ∧
    (elapseDebounce sampleArtifact 2000
      (saveContent sampleArtifact 0 emptyHistorySession "hello"
        true)).documents = some [] := by
  decide

/-- Claim C2 (amended): with an empty revision history the whole edit
path is a no-op, for every artifact, content, timestamps and debounce
mode: the save changes nothing (the dirty flag never becomes true, no
flush is scheduled) and elapsing the debounce window changes nothing, so
no write is ever issued and the history length stays 0. -/
theorem empty_history_edit_noop :
    ∀ (a : UIArtifact) (c : String) (t1 t2 : Nat) (debounce : Bool),
    saveContent a t1 emptyHistorySession c debounce
      = emptyHistorySession ∧
    elapseDebounce a t2 (saveContent a t1 emptyHistorySession c debounce)
      = emptyHistorySession := by
  intro a c t1 t2 debounce
  exact ⟨rfl, rfl⟩

/-- The getDocumentContentById helper (artifact.tsx lines 156-160),
total over an arbitrary integer index: absent history, an out-of-range
index (negative indices read an absent array slot in the source) and a
null content all yield the empty string. -/
def getDocumentContentById (documents : Option (List Document))
    (index : Int) : String :=
  match documents with
  | none => ""
  | some docs =>
    if index < 0 then ""
    else
      match docs[index.toNat]? with
      | none => ""
      | some d => d.content.getD ""

/-- Claim C9: reading a revision's content by index is total: an absent
history, an out-of-range index, and a null content field all return the
empty string, and an in-range record with non-null content returns that
content. -/
theorem getDocumentContentById_total :
    ∀ (documents : Option (List Document)) (index : Int),
    (documents = none → getDocumentContentById documents index = "") ∧
    (∀ docs, documents = some docs →
      (index < 0 ∨ (docs.length : Int) ≤ index) →
      getDocumentContentById documents index = "") ∧
    (∀ docs d, documents = some docs → 0 ≤ index →
      docs[index.toNat]? = some d → d.content = none →
      getDocumentContentById documents index = "") ∧
    (∀ docs d c, documents = some docs → 0 ≤ index →
      docs[index.toNat]? = some d → d.content = some c →
      getDocumentContentById documents index = c) := by
  intro documents index
  refine ⟨?_, ?_, ?_, ?_⟩
  · intro h
    simp [getDocumentContentById, h]
  · intro docs hdocs hrange
    subst hdocs
    rcases hrange with h | h
    · simp [getDocumentContentById, h]
    · have hnonneg : ¬ index < 0 := by omega
      have hlen : docs.length ≤ index.toNat := by omega
      simp [getDocumentContentById, hnonneg, List.getElem?_eq_none hlen]
  · intro docs d hdocs h0 hget hc
    subst hdocs
    have hnonneg : ¬ index < 0 := by omega
    simp [getDocumentContentById, hnonneg, hget, hc]
  · intro docs d c hdocs h0 hget hc
    subst hdocs
    have hnonneg : ¬ index < 0 := by omega
    simp [getDocumentContentById, hnonneg, hget, hc]

/-- Claim C9 witness: concrete reads — absent history, negative index,
index past the end, a record with null content, and a record with
content "a". -/
theorem getDocumentContentById_total_witness :
    getDocumentContentById none 5 = "" ∧
    getDocumentContentById (some [sampleDocument]) (-1) = "" ∧
    getDocumentContentById (some [sampleDocument]) 3 = "" ∧
    getDocumentContentById
      (some [{ sampleDocument with content := none }]) 0 = "" ∧
    getDocumentContentById (some [sampleDocument]) 0 = "a" := by
  refine ⟨?_, ?_, ?_, ?_, ?_⟩
  · exact (getDocumentContentById_total none 5).1 rfl
  · exact (getDocumentContentById_total (some [sampleDocument])
      (-1)).2.1 [sampleDocument] rfl (Or.inl (by decide))
  · exact (getDocumentContentById_total (some [sampleDocument])
      3).2.1 [sampleDocument] rfl (Or.inr (by decide))
  · exact (getDocumentContentById_total
      (some [{ sampleDocument with content := none }]) 0).2.2.1
      [{ sampleDocument with content := none }]
      { sampleDocument with content := none } rfl (by decide) rfl rfl
  · exact (getDocumentContentById_total (some [sampleDocument])
      0).2.2.2 [sampleDocument] sampleDocument "a" rfl (by decide)
      rfl rfl

/-- The display mode useState of the artifact panel ("edit" or "diff"). -/
inductive Mode where
  | edit
  | diff
deriving DecidableEq, Repr

/-- The four version-navigation operations accepted by
handleVersionChange. -/
inductive NavOp where
  | next
  | prev
  | toggle
  | latest
deriving DecidableEq, Repr

/-- The state read and written by handleVersionChange: the SWR document
cache, the selected revision index (a plain number in the source,
initialized to -1), and the display mode. -/
structure NavState where
  documents : Option (List Document)
  currentVersionIndex : Int
  mode : Mode
deriving DecidableEq, Repr

/-- The handleVersionChange handler (artifact.tsx lines 162-183): a
no-op while the document cache is absent; otherwise "latest" selects the
last index and forces edit mode, "toggle" flips the display mode, "prev"
decrements only when the index is positive, and "next" increments only
when the index is below the last position. The four branches of the
source's if chain are mutually exclusive, so they are rendered as a
match. -/
def handleVersionChange (s : NavState) (op : NavOp) : NavState :=
  match s.documents with
  | none => s
  | some docs =>
    match op with
    | NavOp.latest =>
      { s with currentVersionIndex := (docs.length : Int) - 1,
               mode := Mode.edit }
    | NavOp.toggle =>
      { s with mode := if s.mode = Mode.edit then Mode.diff
                       else Mode.edit }
    | NavOp.prev =>
      if s.currentVersionIndex > 0 then
        { s with currentVersionIndex := s.currentVersionIndex - 1 }
      else s
    | NavOp.next =>
      if s.currentVersionIndex < (docs.length : Int) - 1 then
        { s with currentVersionIndex := s.currentVersionIndex + 1 }
      else s

/-- One navigation step keeps the cached document list and keeps the
selected index inside [0, historyLength-1]. -/
theorem hvc_step_bounds (s : NavState) (op : NavOp)
    (docs : List Document) (hd : s.documents = some docs)
    (h0 : 0 ≤ s.currentVersionIndex)
    (h1 : s.currentVersionIndex ≤ (docs.length : Int) - 1) :
    (handleVersionChange s op).documents = some docs ∧
    0 ≤ (handleVersionChange s op).currentVersionIndex ∧
    (handleVersionChange s op).currentVersionIndex
      ≤ (docs.length : Int) - 1 := by
  obtain ⟨sd, si, sm⟩ := s
  simp only at hd h0 h1
  subst hd
  cases op <;> simp only [handleVersionChange] <;>
    (try split_ifs) <;> simp_all <;> omega

/-- Every sequence of navigation steps keeps the cached document list
and keeps the selected index inside [0, historyLength-1]. -/
theorem hvc_foldl_bounds (ops : List NavOp) :
    ∀ (s : NavState) (docs : List Document),
    s.documents = some docs → 0 ≤ s.currentVersionIndex →
    s.currentVersionIndex ≤ (docs.length : Int) - 1 →
    (List.foldl handleVersionChange s ops).documents = some docs ∧
    0 ≤ (List.foldl handleVersionChange s ops).currentVersionIndex ∧
    (List.foldl handleVersionChange s ops).currentVersionIndex
      ≤ (docs.length : Int) - 1 := by
  induction ops with
  | nil => intro s docs hd h0 h1; exact ⟨hd, h0, h1⟩
  | cons op ops ih =>
    intro s docs hd h0 h1
    have h := hvc_step_bounds s op docs hd h0 h1
    simpa [List.foldl] using
      ih (handleVersionChange s op) docs h.1 h.2.1 h.2.2

/-- Claim C3: for every sequence of navigation operations applied to a
state whose selected index lies in [0, historyLength-1], the index stays
in [0, historyLength-1]; moreover prev at index 0 and next at index
historyLength-1 leave the state unchanged. -/
theorem nav_index_stays_in_range :
    ∀ (ops : List NavOp) (s : NavState) (docs : List Document),
    s.documents = some docs →
    0 ≤ s.currentVersionIndex →
    s.currentVersionIndex ≤ (docs.length : Int) - 1 →
    (0 ≤ (List.foldl handleVersionChange s ops).currentVersionIndex ∧
     (List.foldl handleVersionChange s ops).currentVersionIndex
       ≤ (docs.length : Int) - 1) ∧
    (s.currentVersionIndex = 0 →
      handleVersionChange s NavOp.prev = s) ∧
    (s.currentVersionIndex = (docs.length : Int) - 1 →
      handleVersionChange s NavOp.next = s) := by
  intro ops s docs hd h0 h1
  have hfold := hvc_foldl_bounds ops s docs hd h0 h1
  refine ⟨⟨hfold.2.1, hfold.2.2⟩, ?_, ?_⟩
  · intro hz
    obtain ⟨sd, si, sm⟩ := s
    simp only at hd hz
    subst hd
    simp [handleVersionChange, hz]
  · intro hlast
    obtain ⟨sd, si, sm⟩ := s
    simp only at hd hlast
    subst hd
    simp [handleVersionChange, hlast]

/-- Claim C3 witness: from the one-record history at index 0, the
sequence prev, next, toggle, latest, next keeps the index in range, and
prev at 0 and next at the last index are no-ops. -/
theorem nav_index_stays_in_range_witness :
    (0 ≤ (List.foldl handleVersionChange
        ⟨some [sampleDocument], 0, Mode.edit⟩
        [NavOp.prev, NavOp.next, NavOp.toggle, NavOp.latest,
         NavOp.next]).currentVersionIndex ∧
     (List.foldl handleVersionChange
        ⟨some [sampleDocument], 0, Mode.edit⟩
        [NavOp.prev, NavOp.next, NavOp.toggle, NavOp.latest,
         NavOp.next]).currentVersionIndex
       ≤ (([sampleDocument] : List Document).length : Int) - 1) ∧
    ((⟨some [sampleDocument], 0, Mode.edit⟩ :
        NavState).currentVersionIndex = 0 →
      handleVersionChange ⟨some [sampleDocument], 0, Mode.edit⟩
        NavOp.prev = ⟨some [sampleDocument], 0, Mode.edit⟩) ∧
    ((⟨some [sampleDocument], 0, Mode.edit⟩ :
        NavState).currentVersionIndex
        = (([sampleDocument] : List Document).length : Int) - 1 →
      handleVersionChange ⟨some [sampleDocument], 0, Mode.edit⟩
        NavOp.next = ⟨some [sampleDocument], 0, Mode.edit⟩) :=
  nav_index_stays_in_range
    [NavOp.prev, NavOp.next, NavOp.toggle, NavOp.latest, NavOp.next]
    ⟨some [sampleDocument], 0, Mode.edit⟩ [sampleDocument]
    rfl (by decide) (by decide)

/-- Claim C7: whenever the document cache is present, the latest
operation sets the selected index to historyLength-1 and the display
mode to edit, whatever the prior index and mode. -/
theorem latest_selects_last_version :
    ∀ (s : NavState) (docs : List Document),
    s.documents = some docs →
    handleVersionChange s NavOp.latest =
      { s with currentVersionIndex := (docs.length : Int) - 1,
               mode := Mode.edit } := by
  intro s docs hd
  obtain ⟨sd, si, sm⟩ := s
  simp only at hd
  subst hd
  simp [handleVersionChange]

/-- Claim C7 witness: from index 0 in diff mode over the one-record
history, latest selects index 0 and edit mode. -/
theorem latest_selects_last_version_witness :
    handleVersionChange ⟨some [sampleDocument], 0, Mode.diff⟩
        NavOp.latest =
      { (⟨some [sampleDocument], 0, Mode.diff⟩ : NavState) with
          currentVersionIndex
            := (([sampleDocument] : List Document).length : Int) - 1,
          mode := Mode.edit } :=
  latest_selects_last_version ⟨some [sampleDocument], 0, Mode.diff⟩
    [sampleDocument] rfl

/-- Claim C8 counterexample: in a state whose document cache is absent,
the handler returns early, so toggle does NOT flip the display mode —
the mode stays edit although the claim promises a flip to diff in every
state. -/
theorem toggle_unfetched_cx :
    (handleVersionChange ⟨none, 0, Mode.edit⟩ NavOp.toggle).mode
      = Mode.edit ∧
    Mode.edit ≠ Mode.diff := by
  decide

/-- Claim C8 (amended): when the document cache is present, toggle keeps
the selected index and the cache and flips only the display mode between
edit and diff; when the cache is absent, toggle is a complete no-op; and
in every state applying toggle twice restores the original state. -/
theorem toggle_mode_props :
    ∀ (s : NavState),
    (∀ docs, s.documents = some docs →
      (handleVersionChange s NavOp.toggle).currentVersionIndex
        = s.currentVersionIndex ∧
      (handleVersionChange s NavOp.toggle).documents = s.documents ∧
      (handleVersionChange s NavOp.toggle).mode
        = (if s.mode = Mode.edit then Mode.diff else Mode.edit)) ∧
    (s.documents = none → handleVersionChange s NavOp.toggle = s) ∧
    handleVersionChange (handleVersionChange s NavOp.toggle)
      NavOp.toggle = s := by
  intro s
  obtain ⟨sd, si, sm⟩ := s
  refine ⟨?_, ?_, ?_⟩
  · intro docs hd
    simp only at hd
    subst hd
    cases sm <;> simp [handleVersionChange]
  · intro hd
    simp only at hd
    subst hd
    rfl
  · cases sd with
    | none => rfl
    | some docs => cases sm <;> rfl

/-- Claim C8 witness: over the one-record history in edit mode at index
0, toggle keeps the index and cache, switches the mode to diff, and
applied twice restores the state; on an absent cache it is a no-op. -/
theorem toggle_mode_props_witness :
    ((handleVersionChange ⟨some [sampleDocument], 0, Mode.edit⟩
        NavOp.toggle).currentVersionIndex = 0 ∧
     (handleVersionChange ⟨some [sampleDocument], 0, Mode.edit⟩
        NavOp.toggle).documents = some [sampleDocument] ∧
     (handleVersionChange ⟨some [sampleDocument], 0, Mode.edit⟩
        NavOp.toggle).mode = Mode.diff) ∧
    handleVersionChange ⟨none, 3, Mode.diff⟩ NavOp.toggle
      = ⟨none, 3, Mode.diff⟩ ∧
    handleVersionChange
      (handleVersionChange ⟨some [sampleDocument], 0, Mode.edit⟩
        NavOp.toggle) NavOp.toggle
      = ⟨some [sampleDocument], 0, Mode.edit⟩ := by
  have h1 := toggle_mode_props ⟨some [sampleDocument], 0, Mode.edit⟩
  have h2 := toggle_mode_props ⟨none, 3, Mode.diff⟩
  have h3 := h1.1 [sampleDocument] rfl
  exact ⟨⟨h3.1, h3.2.1, by simpa using h3.2.2⟩, h2.2.1 rfl, h1.2.2⟩

/-- The chat component state touched by the one-time query-consumption
effect (the chat component, lines 113-128): the "query" search
parameter (null when absent), the hasAppendedQuery flag, the texts of
the synthetic user turns sent so far, and the visible URL. -/
structure ChatQueryState where
  query : Option String
  hasAppendedQuery : Bool
  sentMessages : List String
  url : String
deriving DecidableEq, Repr

/-- One run of the query-consumption effect: if the query parameter is
truthy (present and nonempty) and the flag is unset, send one synthetic
user turn with its text, set the flag, and replace the visible URL with
the bare chat path; otherwise do nothing. -/
def queryEffect (id : String) (s : ChatQueryState) : ChatQueryState :=
  match s.query with
  | none => s
  | some q =>
    if q ≠ "" ∧ s.hasAppendedQuery = false then
      { s with sentMessages := s.sentMessages ++ [q],
               hasAppendedQuery := true,
               url := "/chat/" ++ id }
    else s

/-- Running the effect again after any run changes nothing. -/
theorem queryEffect_idem (id : String) (s : ChatQueryState) :
    queryEffect id (queryEffect id s) = queryEffect id s := by
  obtain ⟨q, flag, sent, url⟩ := s
  cases q with
  | none => rfl
  | some q =>
    by_cases hq : q = ""
    · subst hq
      simp [queryEffect]
    · cases flag <;> simp [queryEffect, hq]

/-- Iterating the effect on an already-run state is the identity. -/
theorem queryEffect_iterate_fix (id : String) (s : ChatQueryState) :
    ∀ n : Nat, Nat.iterate (queryEffect id) n (queryEffect id s)
      = queryEffect id s := by
  intro n
  induction n with
  | zero => rfl
  | succ n ih =>
    rw [Function.iterate_succ_apply, queryEffect_idem, ih]

/-- Claim C5: from a fresh mount (flag unset, nothing sent) with the
query parameter present, any positive number of render passes of the
effect equals a single pass; that single pass, when the parameter text is
nonempty, sends exactly one synthetic user turn with that text, sets the
consumption flag and strips the parameter from the visible URL; when the
text is empty the effect does nothing. -/
theorem query_consumed_once :
    ∀ (id q url0 : String) (n : Nat), 1 ≤ n →
    Nat.iterate (queryEffect id) n ⟨some q, false, [], url0⟩
      = queryEffect id ⟨some q, false, [], url0⟩ ∧
    (q ≠ "" →
      (queryEffect id ⟨some q, false, [], url0⟩).sentMessages = [q] ∧
      (queryEffect id ⟨some q, false, [], url0⟩).hasAppendedQuery
        = true ∧
      (queryEffect id ⟨some q, false, [], url0⟩).url = "/chat/" ++ id) ∧
    (q = "" →
      queryEffect id ⟨some q, false, [], url0⟩
        = ⟨some q, false, [], url0⟩) := by
  intro id q url0 n hn
  obtain ⟨m, rfl⟩ : ∃ m, n = m + 1 := ⟨n - 1, by omega⟩
  refine ⟨?_, ?_, ?_⟩
  · rw [Function.iterate_succ_apply, queryEffect_iterate_fix]
  · intro hq
    simp [queryEffect, hq]
  · intro hq
    subst hq
    simp [queryEffect]

/-- Claim C5 witness: with query "hi" on chat "c1", three render passes
equal one, which sends exactly the single turn "hi" and rewrites the URL
to /chat/c1. -/
theorem query_consumed_once_witness :
    Nat.iterate (queryEffect "c1") 3
        ⟨some "hi", false, [], "/chat/c1?query=hi"⟩
      = queryEffect "c1" ⟨some "hi", false, [], "/chat/c1?query=hi"⟩ ∧
    (queryEffect "c1"
        ⟨some "hi", false, [], "/chat/c1?query=hi"⟩).sentMessages
      = ["hi"] ∧
    (queryEffect "c1"
        ⟨some "hi", false, [], "/chat/c1?query=hi"⟩).url
      = "/chat/c1" := by
  have h := query_consumed_once "c1" "hi" "/chat/c1?query=hi" 3
    (by decide)
  have h2 := h.2.1 (by decide)
  exact ⟨h.1, h2.1, h2.2.2⟩
